import Mathlib

/-!
# Verification of the tma.js Mini Apps event-ingestion pipeline

A shallow embedding of `createMiniAppsEventEmitter.ts` (the schema/parser
registry, the window-message dispatcher, the resize-driven synthetic event,
the emitter facade and its dispose function), together with proofs of the
behavioural properties stated in the project specification.

JavaScript runtime values are modelled by the inductive type `JSVal`;
machine numbers appearing in the events of interest are integers, so `Int`
is used for the numeric case.  Fallible decoding is modelled with
`Except Unit`.
-/

/-- A JavaScript runtime value, as far as the pipeline inspects it:
`null` and `undefined` are distinct, objects are ordered association lists. -/
inductive JSVal where
  | null
  | undefined
  | bool (b : Bool)
  | num (n : Int)
  | str (s : String)
  | obj (fields : List (String × JSVal))
  | arr (elems : List JSVal)

/-- JavaScript truthiness: `null`, `undefined`, `false`, `0` and the empty
string are falsy; objects and arrays are always truthy. -/
def truthy : JSVal → Bool
  | .null => false
  | .undefined => false
  | .bool b => b
  | .num n => n != 0
  | .str s => s != ""
  | .obj _ => true
  | .arr _ => true

/-- `value === null || value === undefined` (the nullish test used by the
source's `??` operator and explicit comparisons). -/
def isNullish : JSVal → Bool
  | .null => true
  | .undefined => true
  | _ => false

/-- `value === null` strict comparison. -/
def isNull : JSVal → Bool
  | .null => true
  | _ => false

/-- A field parser: consumes an untyped value, produces a decoded value or
fails.  Failures carry no information, matching the spec's treatment of
`ValidationError` as an opaque rejection. -/
def FieldParse : Type := JSVal → Except Unit JSVal

/-- Modelled from the spec: the `string()` primitive parser from the parsing
package (not included under src/).  Accepts string values, fails otherwise. -/
def string : FieldParse
  | .str s => .ok (.str s)
  | _ => .error ()

/-- Modelled from the spec: the `number()` primitive parser (not included
under src/).  Accepts (finite) numeric values, rejects everything else. -/
def number : FieldParse
  | .num n => .ok (.num n)
  | _ => .error ()

/-- Modelled from the spec: the `boolean()` primitive parser (not included
under src/).  Accepts boolean values, rejects everything else. -/
def boolean : FieldParse
  | .bool b => .ok (.bool b)
  | _ => .error ()

/-- Modelled from the spec: the `.optional()` combinator (not included under
src/): accepts `null`/`undefined` and returns the sentinel absent value
(`undefined`) instead of failing; otherwise runs the wrapped parser. -/
def optionalField (p : FieldParse) : FieldParse := fun v =>
  if isNullish v then .ok .undefined else p v

/-- Modelled from the spec: the `rgb()` color parser (not included under
src/): accepts the `#rrggbb` textual color notation and fails otherwise. -/
def rgb : FieldParse
  | .str s =>
    if s.length = 7 && s.startsWith "#" && (s.drop 1).all (fun c => c.isDigit || (("abcdefABCDEF".toList).contains c))
    then .ok (.str s) else .error ()
  | _ => .error ()

/-- Modelled from the spec: `toRecord` (not included under src/): succeeds on
object-shaped values, exposing their fields; fails on anything else. -/
def toRecord : JSVal → Except Unit (List (String × JSVal))
  | .obj fs => .ok fs
  | _ => .error ()

/-- Property access `record[k]`: the first field named `k`, or `undefined`
when the field is absent. -/
def lookupField (fields : List (String × JSVal)) (k : String) : JSVal :=
  match fields.find? (fun p => p.1 == k) with
  | some p => p.2
  | none => .undefined

/-- Runs each named field parser of a schema against the corresponding field
of the input record (absent fields read as `undefined`), collecting the
decoded fields in schema order; any field failure fails the whole record. -/
def parseFields (fields : List (String × JSVal)) :
    List (String × FieldParse) → Except Unit (List (String × JSVal))
  | [] => .ok []
  | (k, p) :: rest => do
    let v ← p (lookupField fields k)
    let vs ← parseFields fields rest
    .ok ((k, v) :: vs)

/-- Modelled from the spec: the `json(schema)` record-parser combinator (not
included under src/): fails unless the input is object-shaped, then decodes
each schema field; unknown extra fields are ignored. -/
def json (schema : List (String × FieldParse)) : FieldParse := fun v => do
  let fs ← toRecord v
  let out ← parseFields fs schema
  .ok (.obj out)

/-- `parsers.clipboard_text_received` from the source: `req_id` is a string;
`data` is returned as-is when strictly `null`, otherwise decoded by
`string().optional()`. -/
def clipboard_text_received_parse : FieldParse :=
  json [("req_id", string),
        ("data", fun v => if isNull v then .ok v else optionalField string v)]

/-- `parsers.custom_method_invoked` from the source. -/
def custom_method_invoked_parse : FieldParse :=
  json [("req_id", string), ("result", fun v => .ok v), ("error", optionalField string)]

/-- `parsers.invoice_closed` from the source. -/
def invoice_closed_parse : FieldParse :=
  json [("slug", string), ("status", string)]

/-- `parsers.phone_requested` from the source. -/
def phone_requested_parse : FieldParse :=
  json [("status", string)]

/-- `parsers.popup_closed` from the source: the whole event data is defaulted
to an empty object when nullish (`value ?? {}`); the `button_id` field decodes
`null`/`undefined` to `undefined` and otherwise must be a string. -/
def popup_closed_parse : FieldParse := fun value =>
  json [("button_id", fun v => if isNullish v then .ok .undefined else string v)]
    (if isNullish value then .obj [] else value)

/-- `parsers.qr_text_received` from the source. -/
def qr_text_received_parse : FieldParse :=
  json [("data", optionalField string)]

/-- `parsers.theme_changed` from the source: `theme_params` is coerced to a
record whose every value is decoded by `rgb().optional()`. -/
def theme_changed_parse : FieldParse :=
  json [("theme_params", fun v => do
    let fs ← toRecord v
    let out ← fs.mapM (fun kv => do
      let c ← optionalField rgb kv.2
      pure (kv.1, c))
    pure (.obj out))]

/-- The live window state the pipeline reads (`window.innerWidth` /
`window.innerHeight`). -/
structure Window where
  innerWidth : Int
  innerHeight : Int
deriving DecidableEq

/-- `parsers.viewport_changed` from the source: `height` is numeric; `width`
is replaced by the live `window.innerWidth` when `null` or `undefined` and
otherwise must be numeric; both flags are booleans. -/
def viewport_changed_parse (win : Window) : FieldParse :=
  json [("height", number),
        ("width", fun v => if isNullish v then .ok (.num win.innerWidth) else number v),
        ("is_state_stable", boolean),
        ("is_expanded", boolean)]

/-- `parsers.write_access_requested` from the source. -/
def write_access_requested_parse : FieldParse :=
  json [("status", string)]

/-- The schema registry of the source (`const parsers = ...`): the lookup
`parsers[eventType]` returns the registered parser, or nothing for any other
event type.  `viewport_changed` reads the live window at decode time, so the
registry is parameterised by the `Window`. -/
def parsersLookup (win : Window) : String → Option FieldParse
  | "clipboard_text_received" => some clipboard_text_received_parse
  | "custom_method_invoked" => some custom_method_invoked_parse
  | "invoice_closed" => some invoice_closed_parse
  | "phone_requested" => some phone_requested_parse
  | "popup_closed" => some popup_closed_parse
  | "qr_text_received" => some qr_text_received_parse
  | "theme_changed" => some theme_changed_parse
  | "viewport_changed" => some (viewport_changed_parse win)
  | "write_access_requested" => some write_access_requested_parse
  | _ => none

/-- The normalized message envelope (`MiniAppsMessage` from `parseMessage.ts`). -/
structure MiniAppsMessage where
  eventType : String
  eventData : JSVal

/-- Modelled from the spec: `parseMessage` (`parseMessage.ts`, not included
under src/): normalizes an already-structured transport payload to the
envelope shape, failing on anything without a string event-type field; the
event-data extraction defaults to an empty object when the field is absent.
A JSON-string transport payload is normalized to the same structured form
before this step, so the model takes the structured value. -/
def parseMessage (v : JSVal) : Except Unit MiniAppsMessage :=
  match v with
  | .obj fields =>
    match lookupField fields "eventType" with
    | .str t =>
      .ok ⟨t, match fields.find? (fun p => p.1 == "eventData") with
              | some p => p.2
              | none => .obj []⟩
    | _ => .error ()
  | _ => .error ()

/-- A window `message` event, as far as the dispatcher inspects it: a source
frame reference (frames are identified by numbers) and the transport data. -/
structure MessageEvent where
  source : Nat
  data : JSVal

/-- The observable outcome of running the dispatcher callback on one window
event: silently ignored, an `emit` on the main emitter with the given
argument list, or a `logger.error` diagnostic carrying the event type and the
parsed message. -/
inductive DispatchResult where
  | ignored
  | emitted (eventType : String) (args : List JSVal)
  | logged (eventType : String) (message : MiniAppsMessage)

/-- The window `message` listener of `createMiniAppsEventEmitter`: drop
non-parent messages; drop messages whose envelope does not decode; look the
event type up in the registry (no parser: use the raw event data; parser:
run it, logging failures); emit with the decoded data as the only argument
when it is truthy and with no argument otherwise. -/
def handleMessage (win : Window) (parent : Nat) (ev : MessageEvent) : DispatchResult :=
  if ev.source = parent then
    match parseMessage ev.data with
    | .error _ => .ignored
    | .ok m =>
      match parsersLookup win m.eventType with
      | none => .emitted m.eventType (if truthy m.eventData then [m.eventData] else [])
      | some p =>
        match p m.eventData with
        | .ok d => .emitted m.eventType (if truthy d then [d] else [])
        | .error _ => .logged m.eventType m
  else .ignored

/-- A window-level event the attached dispatcher reacts to: an inbound
message or a window resize. -/
inductive WindowEvent where
  | message (ev : MessageEvent)
  | resize

/-- The two window listeners registered while the dispatcher is attached: the
`resize` listener synthesizes a `viewport_changed` emission from the live
window metrics with both flags set, without any inbound message; the
`message` listener runs the ingestion pipeline. -/
def handleWindowEvent (win : Window) (parent : Nat) : WindowEvent → DispatchResult
  | .resize => .emitted "viewport_changed"
      [.obj [("width", .num win.innerWidth),
             ("height", .num win.innerHeight),
             ("is_state_stable", .bool true),
             ("is_expanded", .bool true)]]
  | .message ev => handleMessage win parent ev

/-- The event-loop-driven pipeline: each inbound message is processed by one
dispatcher callback invocation, in arrival order. -/
def processAll (win : Window) (parent : Nat) (evs : List MessageEvent) : List DispatchResult :=
  evs.map (handleMessage win parent)

/-- Modelled from the spec: the state of one `EventEmitter`
(`EventEmitter.ts`, not included under src/): listeners (identified by
numbers) registered for exact event names, in registration order and without
deduplication, plus the catch-all subscription stream. -/
structure EmitterState where
  named : List (String × Nat)
  catchAll : List Nat
deriving DecidableEq

/-- Modelled from the spec: `EventEmitter.on` appends a named registration. -/
def EmitterState.on (s : EmitterState) (name : String) (lid : Nat) : EmitterState :=
  { s with named := s.named ++ [(name, lid)] }

/-- Removes the first list element satisfying the test; the list is unchanged
when none does. -/
def removeFirst (p : α → Bool) : List α → List α
  | [] => []
  | x :: xs => if p x then xs else x :: removeFirst p xs

/-- Modelled from the spec: `EventEmitter.off` removes the first matching
named registration and is a no-op when none matches. -/
def EmitterState.off (s : EmitterState) (name : String) (lid : Nat) : EmitterState :=
  { s with named := removeFirst (fun q => q == (name, lid)) s.named }

/-- Modelled from the spec: `EventEmitter.subscribe` appends a catch-all
registration. -/
def EmitterState.subscribe (s : EmitterState) (lid : Nat) : EmitterState :=
  { s with catchAll := s.catchAll ++ [lid] }

/-- Modelled from the spec: `EventEmitter.unsubscribe` removes the first
matching catch-all registration. -/
def EmitterState.unsubscribe (s : EmitterState) (lid : Nat) : EmitterState :=
  { s with catchAll := removeFirst (fun q => q == lid) s.catchAll }

/-- Modelled from the spec: `EventEmitter.count` is the total of active
registrations across the named and catch-all streams. -/
def EmitterState.count (s : EmitterState) : Nat :=
  s.named.length + s.catchAll.length

/-- Modelled from the spec: `EventEmitter.clear` removes all registrations. -/
def EmitterState.clear : EmitterState := ⟨[], []⟩

/-- Modelled from the spec: emitting `name` invokes every currently
registered listener for `name`, in registration order, and every catch-all
listener; the returned list is the listeners invoked by this emit call. -/
def EmitterState.emit (s : EmitterState) (name : String) : List Nat :=
  (s.named.filter (fun q => q.1 == name)).map (fun q => q.2) ++ s.catchAll

/-- The pair of emitters created by `createMiniAppsEventEmitter`: the main
emitter processing all incoming events, and the sub emitter backing the
`subscribe` facade. -/
structure MiniAppsEmitterState where
  main : EmitterState
  sub : EmitterState
deriving DecidableEq

/-- The listener id of the internal bridge that `createMiniAppsEventEmitter`
subscribes on the main emitter at construction (it forwards every main-emitter
event onto the sub emitter's `event` stream). -/
def bridgeId : Nat := 0

/-- The emitter pair right after `createMiniAppsEventEmitter` returns and
before any facade call: no user registrations, but the internal bridge is
already subscribed on the main emitter's catch-all stream. -/
def initialMiniApps : MiniAppsEmitterState :=
  ⟨⟨[], [bridgeId]⟩, ⟨[], []⟩⟩

/-- The facade's `on` binding: `mainEmitter.on.bind(mainEmitter)`. -/
def miniAppsOn (name : String) (lid : Nat) (s : MiniAppsEmitterState) : MiniAppsEmitterState :=
  { s with main := s.main.on name lid }

/-- The facade's `off` binding, exactly as in the source:
`off: mainEmitter.on.bind(mainEmitter)` — it is a binding of `on`, so calling
the facade's `off` registers rather than removes. -/
def miniAppsOff (name : String) (lid : Nat) (s : MiniAppsEmitterState) : MiniAppsEmitterState :=
  { s with main := s.main.on name lid }

/-- The facade's `subscribe(listener)`: `subEmitter.on('event', listener)`. -/
def miniAppsSubscribe (lid : Nat) (s : MiniAppsEmitterState) : MiniAppsEmitterState :=
  { s with sub := s.sub.on "event" lid }

/-- The facade's `unsubscribe(listener)`: `subEmitter.off('event', listener)`. -/
def miniAppsUnsubscribe (lid : Nat) (s : MiniAppsEmitterState) : MiniAppsEmitterState :=
  { s with sub := s.sub.off "event" lid }

/-- The facade's `count` getter: `mainEmitter.count + subEmitter.count`. -/
def miniAppsCount (s : MiniAppsEmitterState) : Nat :=
  s.main.count + s.sub.count

/-- The page-level resources `createMiniAppsEventEmitter` touches: whether the
proxy event handlers are defined, how many window `resize` and `message`
listeners it holds, and the emitter pair. -/
structure World where
  handlersDefined : Bool
  resizeListeners : Nat
  messageListeners : Nat
  emitters : MiniAppsEmitterState
deriving DecidableEq

/-- The effect of running every cleanup passed to `createCleanup` once:
`cleanupEventHandlers`, removal of the `resize` and `message` window
listeners, and `clear` on both emitters. -/
def disposeEffects (w : World) : World :=
  { handlersDefined := false,
    resizeListeners := w.resizeListeners - 1,
    messageListeners := w.messageListeners - 1,
    emitters := ⟨EmitterState.clear, EmitterState.clear⟩ }

/-- Modelled from the spec: the dispose function built by `createCleanup`
(`createCleanup.ts`, not included under src/): the first call runs the
registered cleanup functions; any later call is a no-op.  The `Bool`
component records whether dispose has already run. -/
def dispose : World × Bool → World × Bool
  | (w, false) => (disposeEffects w, true)
  | (w, true) => (w, true)

/-- The listeners of the main emitter invoked as a result of one dispatcher
outcome: none unless the outcome is an emit. -/
def dispatchInvocations (s : EmitterState) : DispatchResult → List Nat
  | .emitted name _ => s.emit name
  | _ => []

/-- Claim C1 (code bug): the facade's `off` is bound to `mainEmitter.on`, so
`off(name, listener)` after `on(name, listener)` does not remove the
registration — it adds a second one, and a subsequent emit of that name still
invokes the listener (twice). -/
theorem c1_off_binding_registers_instead_of_removing :
    (miniAppsOff "invoice_closed" 7 (miniAppsOn "invoice_closed" 7 initialMiniApps)).main.named
      = [("invoice_closed", 7), ("invoice_closed", 7)] ∧
    ((miniAppsOff "invoice_closed" 7 (miniAppsOn "invoice_closed" 7 initialMiniApps)).main.emit
      "invoice_closed").count 7 = 2 := by
  decide

/-- Claim C2, counterexample: an unknown event type with the falsy raw
payload `0` is not forwarded unmodified — the dispatcher emits the event with
no payload argument at all. -/
theorem c2_falsy_payload_not_forwarded :
    handleMessage ⟨375, 667⟩ 0
        ⟨0, .obj [("eventType", .str "unknown_event"), ("eventData", .num 0)]⟩
      = .emitted "unknown_event" [] ∧
    DispatchResult.emitted "unknown_event" []
      ≠ DispatchResult.emitted "unknown_event" [JSVal.num 0] := by
  refine ⟨rfl, fun h => ?_⟩
  injection h with h1 h2
  exact List.noConfusion h2

/-- Claim C2, amended: for an event type with no registered parser, the
dispatcher forwards the raw event data as the emit argument when it is
truthy, and emits the event with no payload argument when the raw event data
is falsy (`0`, the empty string, `false`, `null`, `undefined`). -/
theorem c2_unknown_event_forwarding (win : Window) (parent : Nat)
    (ev : MessageEvent) (t : String) (d : JSVal)
    (hsrc : ev.source = parent)
    (henv : parseMessage ev.data = Except.ok ⟨t, d⟩)
    (hlook : parsersLookup win t = none) :
    handleMessage win parent ev = .emitted t (if truthy d then [d] else []) := by
  simp [handleMessage, hsrc, henv, hlook]

/-- Witness for C2's amended theorem: a truthy raw payload on an unknown
event type is forwarded unmodified. -/
theorem c2_unknown_event_forwarding_witness :
    handleMessage ⟨375, 667⟩ 0
        ⟨0, .obj [("eventType", .str "unknown_event"), ("eventData", .str "x")]⟩
      = .emitted "unknown_event" [JSVal.str "x"] :=
  c2_unknown_event_forwarding ⟨375, 667⟩ 0
    ⟨0, .obj [("eventType", .str "unknown_event"), ("eventData", .str "x")]⟩
    "unknown_event" (.str "x") rfl rfl rfl

/-- Claim C3: a window message whose source is not the parent frame is
ignored — the dispatcher emits nothing and invokes no listener, whatever the
payload (even a valid envelope with a conforming payload). -/
theorem c3_non_parent_source_ignored (win : Window) (parent : Nat)
    (ev : MessageEvent) (s : EmitterState) (h : ev.source ≠ parent) :
    handleMessage win parent ev = .ignored ∧
    dispatchInvocations s (handleMessage win parent ev) = [] := by
  refine ⟨by simp [handleMessage, h], ?_⟩
  simp [handleMessage, h, dispatchInvocations]

/-- Witness for C3: a perfectly valid `popup_closed` envelope from a
non-parent source (frame 1 instead of parent 0), with a listener registered,
is ignored and invokes nobody. -/
theorem c3_non_parent_source_ignored_witness :
    handleMessage ⟨375, 667⟩ 0
        ⟨1, .obj [("eventType", .str "popup_closed"), ("eventData", .null)]⟩
      = .ignored ∧
    dispatchInvocations ⟨[("popup_closed", 5)], [bridgeId]⟩
        (handleMessage ⟨375, 667⟩ 0
          ⟨1, .obj [("eventType", .str "popup_closed"), ("eventData", .null)]⟩)
      = [] :=
  c3_non_parent_source_ignored ⟨375, 667⟩ 0
    ⟨1, .obj [("eventType", .str "popup_closed"), ("eventData", .null)]⟩
    ⟨[("popup_closed", 5)], [bridgeId]⟩ (by decide)

/-- Claim C4: when a registered parser rejects the payload, the dispatcher
emits nothing, reports a diagnostic carrying the event type and the message,
returns normally (no exception escapes the callback), and the remaining
inbound messages are processed exactly as they would have been. -/
theorem c4_parse_failure_logged_pipeline_continues (win : Window) (parent : Nat)
    (ev : MessageEvent) (t : String) (d : JSVal) (p : FieldParse)
    (rest : List MessageEvent)
    (hsrc : ev.source = parent)
    (henv : parseMessage ev.data = Except.ok ⟨t, d⟩)
    (hlook : parsersLookup win t = some p)
    (hfail : p d = Except.error ()) :
    processAll win parent (ev :: rest) =
      DispatchResult.logged t ⟨t, d⟩ :: processAll win parent rest := by
  simp [processAll, handleMessage, hsrc, henv, hlook, hfail]

/-- Witness for C4: an `invoice_closed` message with a non-object payload is
logged with its event type and message, and the next message (a valid
`popup_closed`) is still processed and emitted. -/
theorem c4_parse_failure_logged_pipeline_continues_witness :
    processAll ⟨375, 667⟩ 0
        [⟨0, .obj [("eventType", .str "invoice_closed"), ("eventData", .num 1)]⟩,
         ⟨0, .obj [("eventType", .str "popup_closed"), ("eventData", .null)]⟩]
      = [.logged "invoice_closed" ⟨"invoice_closed", .num 1⟩,
         .emitted "popup_closed" [.obj [("button_id", .undefined)]]] :=
  c4_parse_failure_logged_pipeline_continues ⟨375, 667⟩ 0
    ⟨0, .obj [("eventType", .str "invoice_closed"), ("eventData", .num 1)]⟩
    "invoice_closed" (.num 1) invoice_closed_parse
    [⟨0, .obj [("eventType", .str "popup_closed"), ("eventData", .null)]⟩]
    rfl rfl rfl rfl

/-- Claim C5, counterexample: a freshly created emitter reports `count = 1`,
not `0` — the internal bridge subscribed on the main emitter at construction
is an active catch-all registration and is included in the total. -/
theorem c5_fresh_count_is_one_not_zero :
    miniAppsCount initialMiniApps = 1 ∧ miniAppsCount initialMiniApps ≠ 0 := by
  decide

/-- Claim C5, amended: `count` is the total of active registrations across
the named and catch-all streams of both emitters, which includes the internal
bridge subscription, so a fresh emitter reports 1; each `on` and each
`subscribe` increases `count` by exactly one. -/
theorem c5_count_totals_registrations_plus_bridge (s : MiniAppsEmitterState)
    (name : String) (lid : Nat) :
    miniAppsCount initialMiniApps = 1 ∧
    miniAppsCount (miniAppsOn name lid s) = miniAppsCount s + 1 ∧
    miniAppsCount (miniAppsSubscribe lid s) = miniAppsCount s + 1 := by
  refine ⟨by decide, ?_, ?_⟩ <;>
    simp [miniAppsCount, miniAppsOn, miniAppsSubscribe, EmitterState.on,
      EmitterState.count] <;> omega

/-- Claim C6: decoding `viewport_changed` event data with a `null` width
substitutes the live `window.innerWidth` (375 in the claim's scenario) while
the other fields are validated as given. -/
theorem c6_viewport_null_width_defaults_to_window (win : Window) :
    viewport_changed_parse win
        (.obj [("height", .num 600), ("width", .null),
               ("is_state_stable", .bool true), ("is_expanded", .bool true)])
      = .ok (.obj [("height", .num 600), ("width", .num win.innerWidth),
                   ("is_state_stable", .bool true), ("is_expanded", .bool true)]) ∧
    viewport_changed_parse ⟨375, 667⟩
        (.obj [("height", .num 600), ("width", .null),
               ("is_state_stable", .bool true), ("is_expanded", .bool true)])
      = .ok (.obj [("height", .num 600), ("width", .num 375),
                   ("is_state_stable", .bool true), ("is_expanded", .bool true)]) :=
  ⟨rfl, rfl⟩

/-- Claim C7: decoding `popup_closed` with `null` (or absent, i.e.
`undefined`) event data succeeds and yields `button_id = undefined`: the
nullish data is first defaulted to an empty object, and the missing
`button_id` field decodes to `undefined` rather than failing. -/
theorem c7_popup_closed_null_data_defaults :
    popup_closed_parse .null = .ok (.obj [("button_id", .undefined)]) ∧
    popup_closed_parse .undefined = .ok (.obj [("button_id", .undefined)]) :=
  ⟨rfl, rfl⟩

/-- Claim C8: while attached, a window resize — with no inbound message —
emits `viewport_changed` carrying the live window width and height and both
flags set; at 800×600 the payload is exactly the claimed record. -/
theorem c8_resize_synthesizes_viewport_changed (win : Window) (parent : Nat) :
    handleWindowEvent win parent .resize
      = .emitted "viewport_changed"
          [.obj [("width", .num win.innerWidth), ("height", .num win.innerHeight),
                 ("is_state_stable", .bool true), ("is_expanded", .bool true)]] ∧
    handleWindowEvent ⟨800, 600⟩ parent .resize
      = .emitted "viewport_changed"
          [.obj [("width", .num 800), ("height", .num 600),
                 ("is_state_stable", .bool true), ("is_expanded", .bool true)]] :=
  ⟨rfl, rfl⟩

/-- Claim C9: the dispose function returned by `createMiniAppsEventEmitter`
is idempotent — a second call returns normally and leaves the window-level
listeners and all emitter registrations exactly as the first call left them. -/
theorem c9_dispose_idempotent (s : World × Bool) :
    dispose (dispose s) = dispose s := by
  obtain ⟨w, flag⟩ := s
  cases flag <;> rfl

/-- Claim C10: the `clipboard_text_received` decoder distinguishes `null`
from absent in the `data` field — `null` is preserved as `null`, an absent
field decodes to `undefined`, a string is kept, and every other `data` value
(anything that is neither `null`, nor `undefined`, nor a string) fails
decoding, so the dispatcher drops (logs) the event. -/
theorem c10_clipboard_data_null_vs_absent :
    clipboard_text_received_parse (.obj [("req_id", .str "r"), ("data", .null)])
      = .ok (.obj [("req_id", .str "r"), ("data", .null)]) ∧
    clipboard_text_received_parse (.obj [("req_id", .str "r")])
      = .ok (.obj [("req_id", .str "r"), ("data", .undefined)]) ∧
    clipboard_text_received_parse (.obj [("req_id", .str "r"), ("data", .str "hello")])
      = .ok (.obj [("req_id", .str "r"), ("data", .str "hello")]) ∧
    clipboard_text_received_parse (.obj [("req_id", .str "r"), ("data", .num 3)])
      = .error () ∧
    (∀ v : JSVal, isNullish v = false → (∀ s : String, v ≠ .str s) →
      clipboard_text_received_parse (.obj [("req_id", .str "r"), ("data", v)])
        = .error ()) ∧
    handleMessage ⟨375, 667⟩ 0
        ⟨0, .obj [("eventType", .str "clipboard_text_received"),
                  ("eventData", .obj [("req_id", .str "r"), ("data", .num 3)])]⟩
      = .logged "clipboard_text_received"
          ⟨"clipboard_text_received", .obj [("req_id", .str "r"), ("data", .num 3)]⟩ := by
  refine ⟨rfl, rfl, rfl, rfl, ?_, rfl⟩
  intro v hnn hns
  cases v with
  | null => exact absurd hnn (by decide)
  | undefined => exact absurd hnn (by decide)
  | str s => exact absurd rfl (hns s)
  | bool _ => rfl
  | num _ => rfl
  | obj _ => rfl
  | arr _ => rfl

/-- Witness for C10's universal failure clause: a boolean `data` value — not
`null`, not `undefined`, not a string — makes `clipboard_text_received`
decoding fail. -/
theorem c10_clipboard_data_null_vs_absent_witness :
    clipboard_text_received_parse (.obj [("req_id", .str "r"), ("data", .bool true)])
      = .error () :=
  c10_clipboard_data_null_vs_absent.2.2.2.2.1 (.bool true) rfl
    (fun _ h => JSVal.noConfusion h)
